import Mathlib

/-!
Shallow embedding of the diagnostics engine in `src/diag.rs` of the
`zeta-note` repository: the data model (`Diag`, `DiagWithLoc`), the three
analysis rules (`check_title`, `check_headings`, `check_intern_links`),
message rendering (`Diag.to_message`) and the publish adapter
(`to_publish`).

The fact-store helpers (`headings_matching`, `heading_by_id`,
`headings_with_ids`, `heading_with_text`, the name/path indexes, the
position index and the text revision) live in `facts.rs` / `parser.rs` /
`store.rs`, which are not part of the provided sources; they are modelled
from the specification (ordered document structure, queryable by id or
predicate; exact-text heading lookup; path/name indexes).

`check_headings` in the source drains a Rust `HashSet` via
`iter().next()`.  In a `HashSet`, iteration order is some arbitrary
permutation of the elements (it depends on the per-instance random hash
state), and deleting an element does not move the remaining ones, so one
run of the loop is faithfully modelled by fixing an arbitrary permutation
`ws` of the heading ids up front and always popping the first remaining
element of `ws`.
-/

/-- A text position, mirroring `lsp_document::Pos` (line/character). -/
structure Pos where
  line : Nat
  character : Nat
deriving DecidableEq

/-- A half-open source span, mirroring `Range<Pos>`. -/
abbrev Span := Pos × Pos

/-- A heading node: `Node<Heading>` from `parser.rs`, collapsed into one
record with the fields the diagnostics code reads (`level`, `text`,
`span`). -/
structure Heading where
  level : Nat
  text : String
  span : Span
deriving DecidableEq

instance : Inhabited Heading := ⟨⟨0, "", (⟨0, 0⟩, ⟨0, 0⟩)⟩⟩

/-- An internal link: `Node<InternLink>` with the fields the link rule
reads (`note_name`, `heading`, `span`). -/
structure InternLink where
  note_name : Option String
  heading : Option String
  span : Span
deriving DecidableEq

/-- Modelled from the spec: one note's fact view — its canonical name,
its headings in document order (a heading's id is its index in this
list), and its internal links in document order. -/
structure NoteData where
  name : String
  headings : List Heading
  links : List InternLink

/-- The diagnostic taxonomy `Diag` from `diag.rs`. -/
inductive Diag where
  | DupTitle (title : Heading)
  | DupHeading (heading : Heading)
  | BrokenInternLinkToNote (linked_note : String)
  | BrokenInternLinkToHeading (linked_note : String) (heading : String)
deriving DecidableEq

/-- `DiagWithLoc = (Diag, Range<Pos>)`. -/
abbrev DiagWithLoc := Diag × Span

/-- `Diag::to_message` from `diag.rs`: the four `format!` templates. -/
def Diag.to_message : Diag → String
  | Diag.DupTitle title =>
      "Duplicate title `" ++ title.text ++ "`. Each note should have at most one title"
  | Diag.DupHeading heading =>
      "Duplicate heading `" ++ heading.text ++ "`"
  | Diag.BrokenInternLinkToNote linked_note =>
      "Reference to non-existent note `" ++ linked_note ++ "`"
  | Diag.BrokenInternLinkToHeading linked_note heading =>
      "Reference to non-existent heading `" ++ linked_note ++ "`" ++ heading

/-- Modelled from the spec: `note.headings_matching(pred)` returns the ids
(document-order indices) of all headings satisfying the predicate, in
document order. -/
def headings_matching (n : NoteData) (p : Heading → Bool) : List Nat :=
  ((n.headings.enum.filter (fun x => p x.2)).map Prod.fst)

/-- Modelled from the spec: `strukt.heading_by_id(id)` returns the heading
with the given id. -/
def heading_by_id (n : NoteData) (id : Nat) : Heading :=
  n.headings.getD id default

/-- Modelled from the spec: `strukt.headings_with_ids(ids)` returns the
headings with the given ids, in the order the ids are given. -/
def headings_with_ids (n : NoteData) (ids : List Nat) : List Heading :=
  ids.map (heading_by_id n)

/-- Modelled from the spec: `heading_with_text` — lookup of a heading by
exact text match. -/
def heading_with_text (n : NoteData) (t : String) : Option Heading :=
  n.headings.find? (fun hd => hd.text == t)

/-- `check_title` from `diag.rs`: collect the ids of level-1 headings,
fetch the headings, skip the first, report each remaining one as a
duplicate title at its own span. -/
def check_title (note : NoteData) : List DiagWithLoc :=
  let hd_ids := headings_matching note (fun hd => hd.level == 1)
  let duplicates := (headings_with_ids note hd_ids).drop 1
  duplicates.map (fun t => (Diag.DupTitle t, t.span))

/-- The `while let` loop of `check_headings`: pop the next id from the
worklist, collect every heading whose text equals the popped heading's
text (note: with no level filter, exactly as in the source), report all
of them except the popped one, and remove them from the worklist.  The
worklist is a list in hash-set iteration order; `fuel` (initially the
worklist length) makes the recursion structural. -/
def check_headings_loop (note : NoteData) : Nat → List Nat → List Heading
  | 0, _ => []
  | _ + 1, [] => []
  | fuel + 1, cur_id :: rest =>
      let cur_hd := heading_by_id note cur_id
      let similar_text_ids :=
        (headings_matching note (fun hd => hd.text == cur_hd.text)).filter
          (fun id => id != cur_id)
      if similar_text_ids.isEmpty then
        check_headings_loop note fuel rest
      else
        headings_with_ids note similar_text_ids ++
          check_headings_loop note fuel
            (rest.filter (fun id => !similar_text_ids.contains id))

/-- `check_headings` from `diag.rs`.  `ws` is the hash-set iteration
order of `hd_ids_to_inspect`: an arbitrary permutation of
`headings_matching note (level > 1)`. -/
def check_headings (note : NoteData) (ws : List Nat) : List DiagWithLoc :=
  (check_headings_loop note ws.length ws).map (fun h => (Diag.DupHeading h, h.span))

/-- Modelled from the spec: the read-only capability the link rule needs —
resolve a note id by name, and fetch a note's fact view by id. -/
structure Facts where
  findByName : String → Option Nat
  noteById : Nat → NoteData

/-- The body of `check_intern_links`'s `for` loop for one link: compute
the effective target name (the explicit name, or the current note's name),
resolve it; if unresolved report a broken link to the note; if resolved
and a heading is named but absent from the target, report a broken link
to the heading. -/
def processLink (facts : Facts) (note : NoteData) (l : InternLink) : List DiagWithLoc :=
  let target_name := l.note_name.getD note.name
  match facts.findByName target_name with
  | some id =>
      match l.heading with
      | some h =>
          match heading_with_text (facts.noteById id) h with
          | none => [(Diag.BrokenInternLinkToHeading target_name h, l.span)]
          | some _ => []
      | none => []
  | none => [(Diag.BrokenInternLinkToNote target_name, l.span)]

/-- `check_intern_links` from `diag.rs`: fold over the note's internal
links in document order, accumulating each link's diagnostics. -/
def check_intern_links (facts : Facts) (note : NoteData) : List DiagWithLoc :=
  note.links.foldl (fun diags l => diags ++ processLink facts note l) []

/-- An LSP line/character range, the output of span translation. -/
structure LspRange where
  start_line : Nat
  start_character : Nat
  end_line : Nat
  end_character : Nat
deriving DecidableEq

/-- `DiagnosticSeverity::ERROR` (LSP value 1). -/
def ERROR : Nat := 1

/-- An LSP diagnostic with the fields `to_publish` sets. -/
structure Diagnostic where
  range : LspRange
  severity : Option Nat
  message : String
deriving DecidableEq

/-- `PublishDiagnosticsParams` with the fields `to_publish` sets.
Modelled from the spec: the stamped version is the note's current text
revision. -/
structure PublishDiagnosticsParams where
  uri : String
  diagnostics : List Diagnostic
  version : Int
deriving DecidableEq

/-- Modelled from the spec: the per-note view `to_publish` reads — the
current text revision and the position index (span → LSP range,
partial). -/
structure NoteView where
  version : Int
  rangeToLsp : Span → Option LspRange

/-- Modelled from the spec: the fact-store snapshot `to_publish` reads —
path lookup and per-note views. -/
structure FactsDB where
  findByPath : String → Option Nat
  noteView : Nat → NoteView

/-- The `filter_map` body of `to_publish`: translate the span; on failure
drop the diagnostic, on success build the LSP diagnostic with fixed
severity `ERROR` and the rendered message. -/
def translateDiag (nv : NoteView) (dr : DiagWithLoc) : Option Diagnostic :=
  match nv.rangeToLsp dr.2 with
  | some r => some ⟨r, some ERROR, dr.1.to_message⟩
  | none => none

/-- `to_publish` from `diag.rs`.  `url_from_file_path` models the external
`Url::from_file_path`; the `.unwrap()` on its failure is modelled as
`Except.error` (a panic), while the `?` on the path lookup is the
`Except.ok none` soft-fail. -/
def to_publish (url_from_file_path : String → Option String) (file : String)
    (diags : List DiagWithLoc) (facts : FactsDB) :
    Except String (Option PublishDiagnosticsParams) :=
  match facts.findByPath file with
  | none => Except.ok none
  | some id =>
      let note := facts.noteView id
      let lsp_diags := diags.filterMap (translateDiag note)
      match url_from_file_path file with
      | none => Except.error ("Url::from_file_path returned Err and was unwrapped")
      | some uri => Except.ok (some ⟨uri, lsp_diags, note.version⟩)

/-- Fetching the headings whose ids match a predicate yields exactly the
document-order filtering of the note's headings by that predicate. -/
theorem headings_with_ids_matching (n : NoteData) (p : Heading → Bool) :
    headings_with_ids n (headings_matching n p) = n.headings.filter p := by
  unfold headings_with_ids headings_matching heading_by_id
  rw [List.map_map]
  have h1 : ∀ x ∈ (n.headings.enum.filter (fun x => p x.2)),
      (heading_by_id n ∘ Prod.fst) x = Prod.snd x := by
    intro x hx
    have hx1 : x ∈ n.headings.enum := (List.mem_filter.mp hx).1
    have hx2 := List.mem_enum_iff_getElem?.mp hx1
    simp [heading_by_id, List.getD_eq_getElem?_getD, hx2]
  calc ((n.headings.enum.filter (fun x => p x.2)).map (heading_by_id n ∘ Prod.fst))
      = ((n.headings.enum.filter (fun x => p x.2)).map Prod.snd) := by
        exact List.map_congr_left h1
    _ = ((n.headings.enum.filter (p ∘ Prod.snd)).map Prod.snd) := rfl
    _ = (n.headings.enum.map Prod.snd).filter p := (List.filter_map Prod.snd n.headings.enum).symm
    _ = n.headings.filter p := by rw [List.enum_map_snd]

/-- Claim C5: for a note with n level-1 headings, `check_title` reports
exactly max(n-1, 0) duplicate-title diagnostics, one per non-first
level-1 heading in document order, each at that heading's own span; the
first level-1 heading (the head of the document-order filtering, which
is dropped) is never reported. -/
theorem check_title_spec (n : NoteData) :
    check_title n =
      ((n.headings.filter (fun h => h.level == 1)).drop 1).map
        (fun t => (Diag.DupTitle t, t.span)) ∧
    (check_title n).length = (n.headings.filter (fun h => h.level == 1)).length - 1 := by
  have h := headings_with_ids_matching n (fun h => h.level == 1)
  have h1 : check_title n =
      ((n.headings.filter (fun h => h.level == 1)).drop 1).map
        (fun t => (Diag.DupTitle t, t.span)) := by
    simp only [check_title]
    rw [h]
  refine ⟨h1, ?_⟩
  rw [h1]
  simp

/-- Claim C9: `Diag.to_message` is total over the four diagnostic kinds
and produces exactly the verbatim templates; in the broken-heading
message the note name and the heading text are concatenated with no
separator. -/
theorem to_message_templates (t h : Heading) (n hd : String) :
    Diag.to_message (Diag.DupTitle t) =
      "Duplicate title `" ++ t.text ++ "`. Each note should have at most one title" ∧
    Diag.to_message (Diag.DupHeading h) =
      "Duplicate heading `" ++ h.text ++ "`" ∧
    Diag.to_message (Diag.BrokenInternLinkToNote n) =
      "Reference to non-existent note `" ++ n ++ "`" ∧
    Diag.to_message (Diag.BrokenInternLinkToHeading n hd) =
      "Reference to non-existent heading `" ++ n ++ "`" ++ hd :=
  ⟨rfl, rfl, rfl, rfl⟩

/-- Two level-2 headings with equal text, in document order. -/
def hA0 : Heading := ⟨2, "A", (⟨0, 0⟩, ⟨0, 4⟩)⟩

/-- Second occurrence of the duplicated level-2 heading. -/
def hA1 : Heading := ⟨2, "A", (⟨1, 0⟩, ⟨1, 4⟩)⟩

/-- A note with one duplicate group of two level-2 headings. -/
def noteAA : NoteData := ⟨"note-aa", [hA0, hA1], []⟩

/-- Claim C1 (refuted; the code relies on unordered-set iteration): the
level>1 worklist of `noteAA` is the id set {0, 1}; `[1, 0]` is a
legitimate hash-set iteration order of it, and under that order
`check_headings` reports the FIRST occurrence `hA0` and leaves the
second occurrence canonical, while under the order `[0, 1]` it leaves
the first occurrence canonical — the canonical member is whichever
member the set iteration yields first. -/
theorem check_headings_canonical_depends_on_iteration_order :
    headings_matching noteAA (fun hd => decide (hd.level > 1)) = [0, 1] ∧
    ([1, 0] : List Nat).Perm [0, 1] ∧
    check_headings noteAA [1, 0] = [(Diag.DupHeading hA0, hA0.span)] ∧
    check_headings noteAA [0, 1] = [(Diag.DupHeading hA1, hA1.span)] := by
  refine ⟨by decide, List.Perm.swap 0 1 [], by decide, by decide⟩

/-- A level-1 title whose text coincides with a level-2 heading's text. -/
def hI0 : Heading := ⟨1, "Intro", (⟨0, 0⟩, ⟨0, 7⟩)⟩

/-- The level-2 heading sharing the title's text. -/
def hI1 : Heading := ⟨2, "Intro", (⟨1, 0⟩, ⟨1, 8⟩)⟩

/-- A note whose level-1 title and level-2 heading share their text. -/
def noteIntro : NoteData := ⟨"note-intro", [hI0, hI1], []⟩

/-- Claim C2 (refuted; the text-equality query in the source has no
level filter): on `noteIntro` the level>1 worklist is the single id 1,
so the iteration order is forced, yet `check_headings` reports the
level-1 title `hI0` as a duplicate heading. -/
theorem check_headings_reports_level_one_heading :
    headings_matching noteIntro (fun hd => decide (hd.level > 1)) = [1] ∧
    check_headings noteIntro [1] = [(Diag.DupHeading hI0, hI0.span)] ∧
    hI0.level = 1 := by
  refine ⟨by decide, by decide, rfl⟩

/-- Claim C3 (refuted for `check_headings`; each call builds a fresh
randomly-seeded hash set, so two runs on the same snapshot may iterate
in different orders): the orders `[0, 1]` and `[1, 0]` are both
iteration orders of the same worklist {0, 1} of `noteAA`, and the two
runs' diagnostic sets differ — `(DupHeading hA1)` is reported by one run
and not by the other. -/
theorem check_headings_two_runs_differ :
    ([1, 0] : List Nat).Perm [0, 1] ∧
    (Diag.DupHeading hA1, hA1.span) ∈ check_headings noteAA [0, 1] ∧
    (Diag.DupHeading hA1, hA1.span) ∉ check_headings noteAA [1, 0] := by
  refine ⟨List.Perm.swap 0 1 [], by decide, by decide⟩

/-- A level-1 heading sharing its text with the sole level-2 heading. -/
def hS0 : Heading := ⟨1, "Setup", (⟨0, 0⟩, ⟨0, 7⟩)⟩

/-- The sole level-2 heading: a singleton group among level>1 headings. -/
def hS1 : Heading := ⟨2, "Setup", (⟨1, 0⟩, ⟨1, 8⟩)⟩

/-- A note where the level>1 text-equality group of "Setup" is a
singleton. -/
def noteSetup : NoteData := ⟨"note-setup", [hS0, hS1], []⟩

/-- Claim C4 (refuted on the group-count clause; same missing level
filter as C2): on `noteSetup` the only level>1 heading is id 1 and its
level>1 text-equality group is the singleton {1}, so the claim demands
zero diagnostics, yet `check_headings` emits one (the level-1 heading
`hS0`). -/
theorem check_headings_singleton_group_reported :
    headings_matching noteSetup (fun hd => decide (hd.level > 1)) = [1] ∧
    headings_matching noteSetup (fun hd => decide (hd.level > 1 ∧ hd.text = "Setup")) = [1] ∧
    (check_headings noteSetup [1]).length = 1 := by
  refine ⟨by decide, by decide, by decide⟩

/-- `check_intern_links` is the in-order concatenation of the per-link
diagnostics. -/
theorem check_intern_links_eq_join (facts : Facts) (note : NoteData) :
    check_intern_links facts note = (note.links.map (processLink facts note)).flatten := by
  unfold check_intern_links
  suffices h : ∀ (ls : List InternLink) (acc : List DiagWithLoc),
      ls.foldl (fun diags l => diags ++ processLink facts note l) acc =
        acc ++ (ls.map (processLink facts note)).flatten by
    simpa using h note.links []
  intro ls
  induction ls with
  | nil => intro acc; simp
  | cons l ls ih => intro acc; simp [ih, List.append_assoc]

/-- Claim C6: a link whose effective target name is absent from the
vault name index contributes exactly one broken-link-to-note diagnostic
at the link's span and no heading diagnostic; `check_intern_links` is
the concatenation of these per-link contributions. -/
theorem processLink_broken_note (facts : Facts) (note : NoteData) (l : InternLink)
    (h : facts.findByName (l.note_name.getD note.name) = none) :
    processLink facts note l =
      [(Diag.BrokenInternLinkToNote (l.note_name.getD note.name), l.span)] ∧
    check_intern_links facts note = (note.links.map (processLink facts note)).flatten := by
  refine ⟨?_, check_intern_links_eq_join facts note⟩
  simp [processLink, h]

/-- A note with no headings and no links, used as an inert vault entry. -/
def noteEmpty : NoteData := ⟨"empty-note", [], []⟩

/-- A vault whose name index resolves nothing. -/
def factsNone : Facts := ⟨fun _ => none, fun _ => noteEmpty⟩

/-- A link with an explicit target name that the index cannot resolve. -/
def linkMissing : InternLink := ⟨some ("missing"), none, (⟨0, 0⟩, ⟨0, 9⟩)⟩

/-- Witness for C6: on a concrete unresolvable link the hypothesis holds
and the single broken-link-to-note diagnostic is produced. -/
theorem processLink_broken_note_witness :
    factsNone.findByName (linkMissing.note_name.getD noteEmpty.name) = none ∧
    processLink factsNone noteEmpty linkMissing =
      [(Diag.BrokenInternLinkToNote ("missing"), linkMissing.span)] :=
  ⟨rfl, (processLink_broken_note factsNone noteEmpty linkMissing rfl).1⟩

/-- Claim C7: for a link without an explicit target name the effective
target name is the current note's own name, and a broken-link-to-heading
diagnostic produced for it carries that resolved name together with the
requested heading text. -/
theorem processLink_selflink_resolved_name (facts : Facts) (note : NoteData)
    (l : InternLink) (id : Nat) (hstr : String)
    (hname : l.note_name = none)
    (hfind : facts.findByName note.name = some id)
    (hhd : l.heading = some hstr)
    (hmiss : heading_with_text (facts.noteById id) hstr = none) :
    l.note_name.getD note.name = note.name ∧
    processLink facts note l =
      [(Diag.BrokenInternLinkToHeading note.name hstr, l.span)] := by
  have heff : l.note_name.getD note.name = note.name := by
    rw [hname]
    rfl
  refine ⟨heff, ?_⟩
  simp [processLink, heff, hfind, hhd, hmiss]

/-- A self-link (no explicit target name) to a heading text the note
does not contain. -/
def linkSelf : InternLink := ⟨none, some ("Missing Heading"), (⟨2, 0⟩, ⟨2, 5⟩)⟩

/-- A note containing only the self-link and no headings. -/
def noteSelf : NoteData := ⟨"self-note", [], [linkSelf]⟩

/-- A vault that resolves every name to `noteSelf` (id 0). -/
def factsSelf : Facts := ⟨fun _ => some 0, fun _ => noteSelf⟩

/-- Witness for C7: the concrete self-link resolves to the current
note's own name and yields the heading diagnostic carrying that name. -/
theorem processLink_selflink_witness :
    linkSelf.note_name = none ∧
    factsSelf.findByName noteSelf.name = some 0 ∧
    linkSelf.heading = some ("Missing Heading") ∧
    heading_with_text (factsSelf.noteById 0) ("Missing Heading") = none ∧
    processLink factsSelf noteSelf linkSelf =
      [(Diag.BrokenInternLinkToHeading noteSelf.name ("Missing Heading"), linkSelf.span)] :=
  ⟨rfl, rfl, rfl, rfl,
    (processLink_selflink_resolved_name factsSelf noteSelf linkSelf 0
      ("Missing Heading") rfl rfl rfl rfl).2⟩

/-- Claim C8: `to_publish` yields no report when the file's path is not
in the note index; on a known file (and a convertible path) the report
carries the URI, exactly the cached diagnostics whose spans translate
against the current position index (each untranslatable one dropped
individually), and the note's current text revision; a cached diagnostic
survives translation exactly when its span translates, and every
translated diagnostic has the fixed severity `ERROR`. -/
theorem to_publish_spec (url : String → Option String) (file : String)
    (diags : List DiagWithLoc) (facts : FactsDB) :
    (facts.findByPath file = none → to_publish url file diags facts = Except.ok none) ∧
    (∀ id uri, facts.findByPath file = some id → url file = some uri →
      to_publish url file diags facts =
        Except.ok (some ⟨uri, diags.filterMap (translateDiag (facts.noteView id)),
          (facts.noteView id).version⟩) ∧
      (∀ dr : DiagWithLoc, (translateDiag (facts.noteView id) dr).isSome =
          ((facts.noteView id).rangeToLsp dr.2).isSome) ∧
      (∀ d ∈ diags.filterMap (translateDiag (facts.noteView id)),
          d.severity = some ERROR)) := by
  constructor
  · intro h
    simp [to_publish, h]
  · intro id uri hfind hurl
    refine ⟨?_, ?_, ?_⟩
    · simp [to_publish, hfind, hurl]
    · intro dr
      unfold translateDiag
      cases hr : (facts.noteView id).rangeToLsp dr.2 <;> simp [hr]
    · intro d hd
      rcases List.mem_filterMap.mp hd with ⟨dr, hmem, hdr⟩
      cases hr : (facts.noteView id).rangeToLsp dr.2 with
      | none => simp [translateDiag, hr] at hdr
      | some r =>
          simp [translateDiag, hr] at hdr
          rw [← hdr]

/-- A span the position index can translate. -/
def spanGood : Span := (⟨0, 0⟩, ⟨0, 5⟩)

/-- A stale span the position index cannot translate. -/
def spanBad : Span := (⟨9, 0⟩, ⟨9, 5⟩)

/-- The translation of `spanGood`. -/
def lrGood : LspRange := ⟨0, 0, 0, 5⟩

/-- A note view at revision 7 whose index translates only `spanGood`. -/
def nvW : NoteView := ⟨7, fun sp => if sp = spanGood then some lrGood else none⟩

/-- A fact store resolving every path to note id 0 with view `nvW`. -/
def factsW : FactsDB := ⟨fun _ => some 0, fun _ => nvW⟩

/-- A URL conversion that succeeds on every path. -/
def urlW : String → Option String := fun _ => some ("file:///a.md")

/-- A cached diagnostic set with one translatable and one stale span. -/
def diagsW : List DiagWithLoc :=
  [(Diag.BrokenInternLinkToNote ("X"), spanGood),
   (Diag.BrokenInternLinkToNote ("Y"), spanBad)]

/-- Witness for C8: on a concrete known file with a convertible path the
report is produced with the translated diagnostics and revision 7. -/
theorem to_publish_spec_witness :
    factsW.findByPath ("/a.md") = some 0 ∧
    urlW ("/a.md") = some ("file:///a.md") ∧
    to_publish urlW ("/a.md") diagsW factsW =
      Except.ok (some ⟨"file:///a.md",
        diagsW.filterMap (translateDiag (factsW.noteView 0)),
        (factsW.noteView 0).version⟩) :=
  ⟨rfl, rfl,
    ((to_publish_spec urlW ("/a.md") diagsW factsW).2 0 ("file:///a.md") rfl rfl).1⟩

/-- Claim C10: when the path lookup succeeds but the path cannot be
converted to a file URL, `to_publish` hits the `.unwrap()` and panics
(modelled as `Except.error`) instead of returning a report or `None`. -/
theorem to_publish_panics_on_unconvertible_path (url : String → Option String)
    (file : String) (diags : List DiagWithLoc) (facts : FactsDB) (id : Nat)
    (hfind : facts.findByPath file = some id) (hurl : url file = none) :
    to_publish url file diags facts =
      Except.error ("Url::from_file_path returned Err and was unwrapped") := by
  simp [to_publish, hfind, hurl]

/-- A URL conversion that fails on every path. -/
def urlNone : String → Option String := fun _ => none

/-- Witness for C10: a concrete known file whose path fails URL
conversion makes `to_publish` produce the modelled panic. -/
theorem to_publish_panics_witness :
    factsW.findByPath ("/rel.md") = some 0 ∧
    urlNone ("/rel.md") = none ∧
    to_publish urlNone ("/rel.md") [] factsW =
      Except.error ("Url::from_file_path returned Err and was unwrapped") :=
  ⟨rfl, rfl,
    to_publish_panics_on_unconvertible_path urlNone ("/rel.md") [] factsW 0 rfl rfl⟩
